import Mathlib

/-
Verification of the fortune-cookie generation server (src/index.js).

The development shallowly embeds the POST /fortune request handler and its
helper functions.  JavaScript values decoded from JSON are modelled by the
inductive `JSValue`; a thrown-and-caught JavaScript error is modelled by the
`Except.error` branch carrying the error message, mirroring the fact that the
handler signals every attempt-local failure by `throw` and catches it in the
per-attempt `catch` block.  The Groq network round trip, `JSON.parse` and
`Math.random` are external capabilities and enter as parameters
(`provider`, `jsonParse`, `rng`).
-/

/-- A JavaScript value as produced by `JSON.parse`: null, booleans, numbers
(JSON numbers are modelled exactly as rationals), strings, arrays and
objects (ordered field lists). -/
inductive JSValue where
  | null
  | bool (b : Bool)
  | num (n : ℚ)
  | str (s : String)
  | arr (elems : List JSValue)
  | obj (fields : List (String × JSValue))

/-- The JavaScript `typeof` operator on a decoded value.  Note that
`typeof null` and `typeof` of an array are both "object". -/
def jsTypeof : JSValue → String
  | .null => "object"
  | .bool _ => "boolean"
  | .num _ => "number"
  | .str _ => "string"
  | .arr _ => "object"
  | .obj _ => "object"

/-- Result of a JavaScript property access: the value, or `undefined`. -/
inductive JSProp where
  | undefined
  | val (v : JSValue)

/-- `typeof` of a property-access result. -/
def propTypeof : JSProp → String
  | .undefined => "undefined"
  | .val v => jsTypeof v

/-- JavaScript property access `base[name]`.  Accessing a property of
`null` throws a TypeError (the `Except.error` branch); objects look the
field up; every other value (primitives and arrays, which have no such
own properties) yields `undefined`. -/
def getProp : JSValue → String → Except String JSProp
  | .null, name =>
      .error ("TypeError: Cannot read properties of null (reading " ++ name ++ ")")
  | .obj fields, name =>
      .ok (match fields.lookup name with
           | some v => .val v
           | none => .undefined)
  | _, _ => .ok .undefined

/-- The JavaScript whitespace class `\s` (restricted to its ASCII part:
space, tab, line feed, carriage return, form feed, vertical tab). -/
def jsIsWhitespace (c : Char) : Bool :=
  c == ' ' || c == '\t' || c == '\x0a' || c == '\x0d' || c == '\x0c' || c == '\x0b'

/-- Character-list core of JavaScript `String.prototype.trim`: drop
leading and trailing whitespace. -/
def trimChars (l : List Char) : List Char :=
  ((l.dropWhile jsIsWhitespace).reverse.dropWhile jsIsWhitespace).reverse

/-- JavaScript `String.prototype.trim`. -/
def jsTrim (s : String) : String := ⟨trimChars s.data⟩

/-- Character-list core of JavaScript `String.prototype.startsWith`. -/
def startsWithChars : List Char → List Char → Bool
  | [], _ => true
  | _ :: _, [] => false
  | p :: ps, c :: cs => p == c && startsWithChars ps cs

/-- JavaScript `s.startsWith(pat)`. -/
def jsStartsWith (s pat : String) : Bool := startsWithChars pat.data s.data

/-- Character-list core of JavaScript `String.prototype.split`, cutting
at every character satisfying the predicate: `"".split(sep)` is `[""]`,
and in general the segments between separator occurrences are returned,
including empty ones (adjacent separators produce empty segments). -/
def splitChars (p : Char → Bool) : List Char → List (List Char)
  | [] => [[]]
  | c :: cs =>
      match splitChars p cs with
      | [] => [[c]]
      | g :: gs => if p c then [] :: g :: gs else (c :: g) :: gs

/-- JavaScript `s.split("\n")`. -/
def jsSplitNewline (s : String) : List String :=
  (splitChars (fun c => c == '\x0a') s.data).map fun l => ⟨l⟩

/-- JavaScript `parts.join("\n")`. -/
def joinNewline : List String → String
  | [] => ""
  | [s] => s
  | s :: rest => s ++ "\x0a" ++ joinNewline rest

/-- Word count of `finalMessage`, modelling the source expression
`parsed.finalMessage.trim().split(/\s+/).length`: after trimming, the
JavaScript regex split on runs of whitespace returns the list of maximal
non-whitespace runs, except that the empty string splits to a list holding
one empty string (hence count 1, not 0).  Splitting at every whitespace
character and discarding the empty segments counts exactly the maximal
non-whitespace runs of the trimmed text. -/
def jsWordCount (s : String) : Nat :=
  let t := trimChars s.data
  if t = [] then 1
  else ((splitChars jsIsWhitespace t).filter (fun w => w ≠ [])).length

/-- The error message thrown when the decoded value fails the schema
type checks. -/
def schemaErrorMsg : String := "Response JSON does not match the required schema"

/-- The error message thrown when `finalMessage` has too many words. -/
def wordCountMsg (n : Nat) : String :=
  "finalMessage contains " ++ toString n ++ " words (expected under 15 words)"

/-- The schema/word-count validation block of the handler.  The source
throws an `Error` on each failing check, caught by the per-attempt
`catch`; here a throw is the `Except.error` branch.  The checks run in
source order with JavaScript short-circuit evaluation:
`typeof parsed !== "object"`, then `typeof parsed.reasoning !== "string"`,
`typeof parsed.score !== "number"`, `typeof parsed.finalMessage !== "string"`,
and finally the word-count ceiling.  On success the handler keeps the
parsed value itself (`finalMessageResponse = parsed`). -/
def validate (parsed : JSValue) : Except String JSValue :=
  if jsTypeof parsed ≠ "object" then .error schemaErrorMsg
  else match getProp parsed "reasoning" with
  | .error e => .error e
  | .ok reasoningProp =>
    if propTypeof reasoningProp ≠ "string" then .error schemaErrorMsg
    else match getProp parsed "score" with
    | .error e => .error e
    | .ok scoreProp =>
      if propTypeof scoreProp ≠ "number" then .error schemaErrorMsg
      else match getProp parsed "finalMessage" with
      | .error e => .error e
      | .ok fmProp =>
        match fmProp with
        | .val (.str m) =>
            if jsWordCount m ≥ 15 then .error (wordCountMsg (jsWordCount m))
            else .ok parsed
        | _ => .error schemaErrorMsg

/-- The markdown code-fence marker. -/
def fenceMarker : String := "\x60\x60\x60"

/-- The tail of the fenced branch of `cleanJSONResponse`: pop the last
line when it starts with a fence, rejoin and trim.  When the preceding
shift emptied the array, the source reads `parts[parts.length - 1]` —
`undefined` — and calling `.startsWith` on it throws a TypeError (the
`Except.error` branch). -/
def stripClosingFence (parts1 : List String) : Except String String :=
  match parts1.getLast? with
  | none =>
      .error "TypeError: Cannot read properties of undefined (reading startsWith)"
  | some lastLine =>
      let parts2 := if jsStartsWith lastLine fenceMarker then parts1.dropLast else parts1
      .ok (jsTrim (joinNewline parts2))

/-- The source helper `cleanJSONResponse` (same code, entered at the top):
trim, test for an opening fence, shift the first line when it starts with
a fence, then hand the remaining lines to `stripClosingFence`. -/
def cleanJSONResponse (responseText : String) : Except String String :=
  let trimmed := jsTrim responseText
  if jsStartsWith trimmed fenceMarker then
    let parts0 := jsSplitNewline trimmed
    stripClosingFence
      (if jsStartsWith (parts0.headD "") fenceMarker then parts0.tail else parts0)
  else .ok responseText

/-- Processing of one raw provider response inside the attempt `try`
block: the empty-content guard (`if (!responseText) throw`), the fence
cleaning, `JSON.parse` (an external capability, passed in as `jsonParse`;
`none` models a thrown SyntaxError) and the schema validation. -/
def processResponse (jsonParse : String → Option JSValue) (content : Option String) :
    Except String JSValue :=
  match content with
  | none => .error "Empty response from Groq API"
  | some responseText =>
    if responseText = "" then .error "Empty response from Groq API"
    else match cleanJSONResponse responseText with
    | .error e => .error e
    | .ok cleaned =>
      match jsonParse cleaned with
      | none => .error "SyntaxError: Unexpected token in JSON"
      | some parsed => validate parsed

/-- Outcome of one Groq chat-completion round trip, as discriminated by
the handler's `catch` block: a successful HTTP response carrying
`choices[0]?.message?.content` (possibly absent), a `Groq.APIError` with
status 429, or any other thrown error (network fault, other API error). -/
inductive ProviderResponse where
  | ok (content : Option String)
  | rateLimited
  | apiError (msg : String)

/-- The source constant `maxAttempts`: the per-model attempt bound. -/
def maxAttempts : Nat := 3

/-- The source constant `fallbackModels`: the model fallback ladder. -/
def fallbackModels : List String :=
  ["llama-3.3-70b-versatile",
   "llama3-70b-8192",
   "mixtral-8x7b-32768",
   "gemma2-9b-it",
   "llama-3.1-8b-instant",
   "llama3-8b-8192"]

/-- The inner `while (attempts < maxAttempts && !finalMessageResponse)`
loop for one model.  `provider` maps the global call sequence number to
that call's outcome; `callIdx` is the index of the next call; `fuel` is
the number of attempts still allowed (`maxAttempts` initially).  Returns
the valid parsed response, if one was obtained, together with the trace
of models called (one entry per provider call).  A 429 breaks out of the
loop for this model; any other caught error retries the same model. -/
def attemptLoop (jsonParse : String → Option JSValue)
    (provider : Nat → ProviderResponse) (model : String) :
    Nat → Nat → Option JSValue × List String
  | 0, _ => (none, [])
  | fuel + 1, callIdx =>
    match provider callIdx with
    | .rateLimited => (none, [model])
    | .apiError _ =>
        let rest := attemptLoop jsonParse provider model fuel (callIdx + 1)
        (rest.1, model :: rest.2)
    | .ok content =>
        match processResponse jsonParse content with
        | .ok parsed => (some parsed, [model])
        | .error _ =>
            let rest := attemptLoop jsonParse provider model fuel (callIdx + 1)
            (rest.1, model :: rest.2)

/-- The outer `for (const model of fallbackModels)` loop: runs the attempt
loop for each model in turn and stops as soon as a valid response is
obtained. -/
def modelLoop (jsonParse : String → Option JSValue)
    (provider : Nat → ProviderResponse) :
    List String → Nat → Option JSValue × List String
  | [], _ => (none, [])
  | model :: rest, callIdx =>
    let r := attemptLoop jsonParse provider model maxAttempts callIdx
    match r.1 with
    | some parsed => (some parsed, r.2)
    | none =>
        let r2 := modelLoop jsonParse provider rest (callIdx + r.2.length)
        (r2.1, r.2 ++ r2.2)

/-- Swap of two list positions, the effect of the destructuring
assignment in the shuffle loop; out-of-range indices leave the list
unchanged (they never occur in an actual run, where the random index is
in range by construction). -/
def listSwap (l : List α) (i j : Nat) : List α :=
  match l.get? i, l.get? j with
  | some x, some y => (l.set i y).set j x
  | _, _ => l

/-- The Fisher–Yates loop of `getRandomElements`:
`for (let i = length - 1; i > 0; i--)` with
`j = Math.floor(Math.random() * (i + 1))`.  `rng i` is the `Math.random()`
value drawn at loop counter `i` (each counter is visited once per call,
so indexing the stream by the counter is faithful). -/
def shuffleLoop (rng : Nat → ℚ) (l : List String) : Nat → List String
  | 0 => l
  | i + 1 =>
      let j := (⌊rng (i + 1) * ((i : ℚ) + 2)⌋).toNat
      shuffleLoop rng (listSwap l (i + 1) j) i

/-- The source helper `getRandomElements`: throws when the array is
shorter than the requested count, otherwise shuffles a copy in place and
returns the first `count` elements (an array, even for `count = 1`). -/
def getRandomElements (rng : Nat → ℚ) (arr : List String) (count : Nat) :
    Except String (List String) :=
  if arr.length < count then
    .error "Array length is smaller than the requested count."
  else
    .ok ((shuffleLoop rng arr (arr.length - 1)).take count)

/-- The per-theme static fallback pool, transcribed verbatim from the source constant `FALLBACK_WHOLESOME`. -/
def FALLBACK_WHOLESOME : List String := [
  "Your plant survived another week – you\x27re basically a life wizard.",
  "That song you can\x27t stop humming? It\x27s humming you back.",
  "Your bed appreciates how well you make it, even on lazy days.",
  "Today\x27s awkward moment will be next week\x27s favorite story.",
  "Your coffee maker thinks you\x27re the best part of waking up.",
  "That random dance move you invented? It\x27s catching on somewhere.",
  "Even your backup plans have backup plans – you delightful overthinker.",
  "Your bookshelf quietly brags about your excellent taste.",
  "Your leftovers are living their best second-chance life.",
  "The blanket fort you built in third grade still stands in memory.",
  "Your sock drawer\x27s organizational system is living poetry.",
  "That pun you made yesterday finally made someone laugh today.",
  "Your playlist could save the world, one shuffle at a time.",
  "The universe giggles every time you talk to yourself.",
  "Your morning bedhead is an avant-garde masterpiece.",
  "That weird filing system only you understand? Pure genius.",
  "Your signature dance move is studied by distant aliens.",
  "The snooze button admires your optimism.",
  "Your shower singing career is underrated.",
  "Even your typos have a certain charm.",
  "Your collection of unmatched socks forms a secret society.",
  "That recipe you improvised deserves its own cookbook.",
  "Your indoor plants spread rumors about your green thumb.",
  "The stars choreograph their dance to your heartbeat.",
  "Your favorite mug tells other cups about you.",
  "That childhood stuffed animal still guards your dreams.",
  "Your browser history tells an epic adventure story.",
  "The mirror practices your expressions when you\x27re away.",
  "Your grocery lists are poetry in disguise.",
  "That fancy pen saves its best ink for you.",
  "Your phone\x27s camera roll is a museum of moments.",
  "The kitchen dances when you cook at midnight.",
  "Your umbrella collection predicts beautiful storms.",
  "That half-finished project is plotting a comeback.",
  "Your desk chair spins tales of your brilliance.",
  "The calendar circles your name in golden light.",
  "Your footsteps leave echoes of possibility.",
  "That one sock you lost is living its best life.",
  "Your keys hide to spend more time with you.",
  "The wind whistles your forgotten melodies.",
  "Your coffee stains map adventures untold.",
  "That parallel parking job deserves an award.",
  "Your handwriting tells secrets in cursive whispers.",
  "The moon photographs your best side nightly.",
  "Your breakfast cereal arranges itself artistically.",
  "That deadline fears your determination.",
  "Your Netflix queue reveals hidden depths.",
  "The weekend plans itself around your smile.",
  "Your pencil sharpener collects brilliant thoughts.",
  "That houseplant grows from your kindness.",
  "Your weekend naps inspire epic dreams.",
  "The refrigerator light stays on for you.",
  "Your bike chain clicks in morse code compliments.",
  "That doodle in your notebook started a movement.",
  "Your kitchen spices trade stories about you.",
  "The washing machine dances to your laundry rhythm.",
  "Your bookmarks lead to treasure maps.",
  "That paper clip collection tells your story.",
  "Your tea leaves read themselves.",
  "The alarm clock delays for your dreams.",
  "Your sticky notes write love letters at night.",
  "That forgotten password remembers you fondly.",
  "Your garage door opens to possibility.",
  "The garden gnome guards your whimsy.",
  "Your email drafts compose secret symphonies.",
  "That misplaced glove waves from adventure.",
  "Your cookie jar keeps midnight secrets.",
  "The doorbell chimes your personal theme song.",
  "Your window view frames perfect moments.",
  "That empty journal page awaits your legend.",
  "Your coffee grounds read like stardust.",
  "The printer jams just to hear your voice.",
  "Your calendar doodles predict the future.",
  "That takeout fortune was meant for you.",
  "Your umbrella stand holds rain dances.",
  "The doormat collects stories with your footsteps.",
  "Your toast always lands butter-side up somewhere.",
  "That lost button adventures without you.",
  "Your shower thoughts solve universal puzzles.",
  "The microwave timer counts your victories.",
  "Your paperclips form chainmail of protection.",
  "That spare key opens parallel worlds.",
  "Your morning alarm dreams your dreams.",
  "The mirror keeps your best angles secret.",
  "Your bookshelf arranges itself by mood.",
  "That extra sock protects its missing twin.",
  "Your pencil marks map constellations.",
  "The ceiling fan spins your stories.",
  "Your doorknob turns golden at your touch.",
  "That chair remembers your perfect posture.",
  "Your calendar circles dance in harmony.",
  "The teapot whistles your favorite tune.",
  "Your phone charger powers possibilities.",
  "That wallet carries more than money.",
  "Your keys jingle victory songs.",
  "The curtains frame your daily epic.",
  "Your coffee cup rim wears your smile.",
  "That stamp collection travels while you sleep.",
  "Your shoelaces tie knots of adventure.",
  "The keyboard clicks code your destiny.",
  "Your headphones whisper tomorrow\x27s songs.",
  "That pencil sharpener keeps your points bright.",
  "Your screen brightness adjusts to your brilliance."
]

/-- The per-theme static fallback pool, transcribed verbatim from the source constant `FALLBACK_DARK`. -/
def FALLBACK_DARK : List String := [
  "Your plant\x27s death wasn\x27t about forgetfulness—it was a commitment metaphor.",
  "That thing you\x27re procrastinating? It\x27s literally twenty minutes of work.",
  "Your \x27healthy boundaries\x27 are just walls painted in therapeutic buzzwords.",
  "The gym membership fees mock your optimism every month.",
  "Your emotional support water bottle can\x27t hydrate away your problems.",
  "That playlist you\x27re proud of is just other people\x27s personalities.",
  "Your backup plans have backup plans, yet anxiety persists.",
  "The vegetables rotting in your fridge judge your life choices.",
  "Your self-care routine is just avoiding decisions in fancy packaging.",
  "That personality test result you quote isn\x27t a personality substitute.",
  "Your extensive tea collection won\x27t steep away life\x27s complications.",
  "The unfinished projects in your closet formed a support group.",
  "Your grocery list optimism doesn\x27t match your takeout reality.",
  "That motivational quote in your bio isn\x27t fooling anyone.",
  "Your meditation app knows you\x27re just napping.",
  "The empty journal collection mirrors your unwritten stories.",
  "Your cooking aspirations end at the chopping board.",
  "That relationship pattern isn\x27t a coincidence anymore.",
  "Your houseplants have trust issues with you.",
  "The unused gift cards mock your good intentions.",
  "Your calendar\x27s \x27maybe\x27 responses are just polite \x27no\x27s.",
  "That fancy coffee maker judges your instant coffee mornings.",
  "Your sustainable lifestyle has questionable Amazon habits.",
  "The unread books judge your Netflix queue.",
  "Your productivity system needs its own productivity system.",
  "That \x27signature style\x27 is just decision fatigue in disguise.",
  "Your indoor herb garden dreams of surviving past week two.",
  "The unopened mail knows your adulting struggles.",
  "Your morning routine aspirations mock your snooze button reality.",
  "That tidying system can\x27t organize your thought chaos.",
  "Your recipe collection vastly exceeds your cooking attempts.",
  "The gym bag in your car has given up hope.",
  "Your podcast queue is longer than your attention span.",
  "That bucket list collects more dust than experiences.",
  "Your spiritual journey keeps circling the parking lot.",
  "The meal prep containers know they\x27re future takeout vessels.",
  "Your reading list grows faster than your wisdom.",
  "That vision board needs its own vision board.",
  "Your self-improvement books need self-improvement.",
  "The empty canvas knows you\x27re just a paint collector.",
  "Your networking strategy is avoiding eye contact professionally.",
  "That expensive hobby equipment questions your commitment.",
  "Your weekend plans consistently overestimate your energy.",
  "The forgotten passwords remember your memory claims.",
  "Your life hack collection needs a life hack.",
  "That empty freezer meal prep space mocks your intentions.",
  "Your DIY supplies have DIY commitment issues.",
  "The new year resolutions recognize their annual reunion.",
  "Your \x27work-life balance\x27 is just burnout in slow motion.",
  "That daily gratitude journal entry is three months old.",
  "Your budgeting app judges your \x27treat yourself\x27 philosophy.",
  "The yoga mat questions your flexibility claims.",
  "Your time management needs time management.",
  "That emergency fund knows it\x27s the vacation budget.",
  "Your skincare routine complexity masks simple neglect.",
  "The reusable bags forget their store visits.",
  "Your inbox organization system needs therapy.",
  "That networking event smile isn\x27t fooling anyone.",
  "Your decision-making process needs decisions made about it.",
  "The forgotten languages app speaks disappointment fluently.",
  "Your five-year plan is creative fiction.",
  "That home organization project spawned three more.",
  "Your charging cable collection could power a small city.",
  "The weekly meal plan surrendered to reality.",
  "Your career path looks more like modern art.",
  "That focus timer knows about your tab-switching habit.",
  "Your new hobby supplies formed a retirement community.",
  "The workshop refund policy knows you well.",
  "Your cleaning schedule is more aspirational than functional.",
  "That resume skills section is optimistically creative.",
  "Your self-improvement paradoxically increases self-criticism.",
  "The filing system created its own chaos theory.",
  "Your future self keeps leaving tasks for future-future self.",
  "That wellness routine needs wellness.",
  "Your shopping cart saves are just digital window shopping.",
  "The meeting notes doodles tell the real story.",
  "Your productivity peak was just caffeine timing.",
  "That sock drawer organization lasted three days.",
  "Your creative process involves mainly procrastination.",
  "The multiple calendars multiply your confusion.",
  "Your habit tracker needs a habit tracker.",
  "That personal brand is just anxiety with a filter.",
  "Your project management style is chaos with deadlines.",
  "The workout playlist outlasts your workouts.",
  "Your contact list needs archaeological excavation.",
  "That digital detox always starts tomorrow.",
  "Your recipe modifications are just ingredient absences.",
  "The meditation pillow knows it\x27s just decor.",
  "Your auto-replies are more consistent than your habits.",
  "That garage organization project entered year three.",
  "Your sleep schedule is more guideline than rule.",
  "The reminder apps remind you to check reminder apps.",
  "Your sustainable swaps can\x27t offset those plane tickets.",
  "That portfolio update is seasonally procrastinated.",
  "Your task categorization system needs categorization.",
  "The bookmark folders are digital hoarding evidence.",
  "Your professional development is Netflix documentary-based.",
  "That morning pages journal questions your definition of morning.",
  "Your life admin needs administrative assistance.",
  "The side hustle needs a side hustle.",
  "Your backup storage is full of duplicate duplicates.",
  "That creative rut dug itself deeper."
]


/-- The theme-to-pool selection of the exhaustion branch:
`theme == "wholesome" ? FALLBACK_WHOLESOME : FALLBACK_DARK`. -/
def themePool (theme : String) : List String :=
  if theme = "wholesome" then FALLBACK_WHOLESOME else FALLBACK_DARK

/-- Terminal result of one generation run: either the validated parsed
response together with the prompts (the success JSON body includes both),
or the static fallback, carrying exactly what `getRandomElements(pool, 1)`
returned — a one-element array of strings, not a bare string. -/
inductive GenerationResult where
  | validated (response : JSValue) (systemPrompt : String) (userPrompt : String)
  | fallback (finalMessage : List String)

/-- The orchestration core of the POST /fortune handler: drive the model
ladder, and on total exhaustion draw a random fortune from the active
theme's static pool.  The system and user prompts are built by the
handler from a fixed template and a randomly chosen focus area; their
text is opaque to the control flow (it is only embedded into the success
body), so they enter here as parameters.  Alongside the result the trace
of provider calls (one model name per call, in order) is returned; the
`Except.error` branch would be an uncaught throw reaching the outer
`catch` (only `getRandomElements` in the exhaustion branch could throw
here). -/
def generate (jsonParse : String → Option JSValue)
    (provider : Nat → ProviderResponse) (rng : Nat → ℚ)
    (systemPrompt userPrompt theme : String) :
    Except String GenerationResult × List String :=
  let r := modelLoop jsonParse provider fallbackModels 0
  match r.1 with
  | some parsed => (.ok (.validated parsed systemPrompt userPrompt), r.2)
  | none =>
    match getRandomElements rng (themePool theme) 1 with
    | .error e => (.error e, r.2)
    | .ok randomFortune => (.ok (.fallback randomFortune), r.2)

/-- The JSON body sent by `res.json` for each terminal result.  The
success body is `{systemPrompt, userPrompt, response}`; the exhaustion
body is `{response: {finalMessage: randomFortune}}` where `randomFortune`
is the array returned by `getRandomElements`. -/
def resultToJSON : GenerationResult → JSValue
  | .validated resp sys usr =>
      .obj [("systemPrompt", .str sys), ("userPrompt", .str usr), ("response", resp)]
  | .fallback msgs =>
      .obj [("response", .obj [("finalMessage", .arr (msgs.map JSValue.str))])]

/-- What the handler sends back: a 400 validation-error body, a 200 JSON
body, or a 500 via `next(error)` and the error middleware. -/
inductive HandlerResult where
  | badRequest
  | okJson (body : JSValue)
  | serverError (msg : String)

/-- The `validateFortuneRequest` middleware on the `theme` field:
`body("theme").isString().isIn(["wholesome", "dark"])`. -/
def validateFortuneRequest (theme : String) : Bool :=
  theme = "wholesome" || theme = "dark"

/-- The POST /fortune handler for a request whose `theme` field decoded
to the string `theme`: reject with 400 when the middleware recorded a
validation error (before any provider call), otherwise run the
generation and serialize the terminal result.  Returns the response
together with the provider-call trace. -/
def fortuneHandler (jsonParse : String → Option JSValue)
    (provider : Nat → ProviderResponse) (rng : Nat → ℚ)
    (systemPrompt userPrompt theme : String) :
    HandlerResult × List String :=
  if validateFortuneRequest theme = false then (.badRequest, [])
  else
    let r := generate jsonParse provider rng systemPrompt userPrompt theme
    match r.1 with
    | .error e => (.serverError e, r.2)
    | .ok result => (.okJson (resultToJSON result), r.2)

/-- Swapping two positions never introduces new elements. -/
theorem mem_of_mem_listSwap {l : List α} {i j : Nat} {x : α}
    (h : x ∈ listSwap l i j) : x ∈ l := by
  unfold listSwap at h
  cases hi : l.get? i with
  | none => rw [hi] at h; exact h
  | some a =>
    cases hj : l.get? j with
    | none => rw [hi, hj] at h; exact h
    | some b =>
      rw [hi, hj] at h
      rcases List.mem_or_eq_of_mem_set h with h2 | h2
      · rcases List.mem_or_eq_of_mem_set h2 with h3 | h3
        · exact h3
        · exact h3 ▸ List.get?_mem hj
      · exact h2 ▸ List.get?_mem hi

/-- Swapping two positions preserves the length. -/
theorem length_listSwap (l : List α) (i j : Nat) :
    (listSwap l i j).length = l.length := by
  unfold listSwap
  cases hi : l.get? i <;> cases hj : l.get? j <;> simp

/-- The shuffle never introduces new elements. -/
theorem mem_of_mem_shuffleLoop {rng : Nat → ℚ} {l : List String} {n : Nat}
    {x : String} (h : x ∈ shuffleLoop rng l n) : x ∈ l := by
  induction n generalizing l with
  | zero => exact h
  | succ i ih =>
    rw [shuffleLoop] at h
    exact mem_of_mem_listSwap (ih h)

/-- The shuffle preserves the length. -/
theorem length_shuffleLoop (rng : Nat → ℚ) (l : List String) (n : Nat) :
    (shuffleLoop rng l n).length = l.length := by
  induction n generalizing l with
  | zero => rfl
  | succ i ih => rw [shuffleLoop, ih, length_listSwap]

/-- Requesting one element from a non-empty array succeeds and yields a
one-element array whose entry is a member of the input. -/
theorem getRandomElements_one (rng : Nat → ℚ) {arr : List String}
    (h : 1 ≤ arr.length) :
    ∃ s, getRandomElements rng arr 1 = .ok [s] ∧ s ∈ arr := by
  unfold getRandomElements
  rw [if_neg (by omega)]
  have hl : (shuffleLoop rng arr (arr.length - 1)).length = arr.length :=
    length_shuffleLoop ..
  cases hsh : shuffleLoop rng arr (arr.length - 1) with
  | nil => rw [hsh] at hl; simp at hl; omega
  | cons s tl =>
    refine ⟨s, ?_, ?_⟩
    · simp
    · exact mem_of_mem_shuffleLoop (hsh ▸ List.mem_cons_self s tl)

/-- When every successful provider response fails processing, the
per-model attempt loop never produces a parsed response. -/
theorem attemptLoop_fst_none {jsonParse : String → Option JSValue}
    {provider : Nat → ProviderResponse} {model : String}
    (hfail : ∀ k c, provider k = .ok c →
      ∃ e, processResponse jsonParse c = .error e) :
    ∀ fuel callIdx, (attemptLoop jsonParse provider model fuel callIdx).1 = none := by
  intro fuel
  induction fuel with
  | zero => intro callIdx; rfl
  | succ f ih =>
    intro callIdx
    rw [attemptLoop]
    cases hp : provider callIdx with
    | rateLimited => rfl
    | apiError m => simpa using ih (callIdx + 1)
    | ok c =>
      rcases hfail callIdx c hp with ⟨e, he⟩
      simpa [he] using ih (callIdx + 1)

/-- When every successful provider response fails processing, the ladder
loop never produces a parsed response. -/
theorem modelLoop_fst_none {jsonParse : String → Option JSValue}
    {provider : Nat → ProviderResponse}
    (hfail : ∀ k c, provider k = .ok c →
      ∃ e, processResponse jsonParse c = .error e) :
    ∀ models callIdx, (modelLoop jsonParse provider models callIdx).1 = none := by
  intro models
  induction models with
  | nil => intro callIdx; rfl
  | cons m rest ih =>
    intro callIdx
    rw [modelLoop]
    simp only [attemptLoop_fst_none hfail]
    exact ih _

/-- Both static pools are non-empty, whatever string the theme is. -/
theorem themePool_nonempty (theme : String) : 1 ≤ (themePool theme).length := by
  unfold themePool
  split <;> decide

/-- When every successful provider response fails processing, `generate`
terminates in the fallback state with a one-element fortune drawn from
the active theme's pool. -/
theorem generate_exhausted {jsonParse : String → Option JSValue}
    {provider : Nat → ProviderResponse} (rng : Nat → ℚ)
    (systemPrompt userPrompt theme : String)
    (hfail : ∀ k c, provider k = .ok c →
      ∃ e, processResponse jsonParse c = .error e) :
    ∃ s, (generate jsonParse provider rng systemPrompt userPrompt theme).1
        = .ok (.fallback [s]) ∧ s ∈ themePool theme := by
  rcases getRandomElements_one rng (themePool_nonempty theme) with ⟨s, hs, hmem⟩
  refine ⟨s, ?_, hmem⟩
  unfold generate
  simp only [modelLoop_fst_none hfail, hs]

/-- `generate` always produces a terminal `GenerationResult`: the
`Except.error` branch (an uncaught throw) is unreachable. -/
theorem generate_total (jsonParse : String → Option JSValue)
    (provider : Nat → ProviderResponse) (rng : Nat → ℚ)
    (systemPrompt userPrompt theme : String) :
    ∃ res, (generate jsonParse provider rng systemPrompt userPrompt theme).1
        = .ok res := by
  unfold generate
  cases hm : (modelLoop jsonParse provider fallbackModels 0).1 with
  | some parsed =>
    refine ⟨.validated parsed systemPrompt userPrompt, ?_⟩
    simp [hm]
  | none =>
    rcases getRandomElements_one rng (themePool_nonempty theme) with ⟨s, hs, _⟩
    refine ⟨.fallback [s], ?_⟩
    simp [hm, hs]

/-- On a non-empty line array the closing-fence step cannot throw. -/
theorem stripClosingFence_ok {l : List String} (h : l ≠ []) :
    ∃ y, stripClosingFence l = .ok y := by
  have hs : l.getLast?.isSome := by simp [List.getLast?_isSome, h]
  cases hg : l.getLast? with
  | none => rw [hg] at hs; simp at hs
  | some lastLine =>
    exact ⟨jsTrim (joinNewline (if jsStartsWith lastLine fenceMarker then l.dropLast else l)),
      by simp [stripClosingFence, hg]⟩

/-- C6 counterexample: the Response Cleaner is not idempotent.  On the
input whose trimmed form opens with two fence lines
("\x60\x60\x60\x0a\x60\x60\x60json\x0afoo") the first application shifts
only the first fence line, returning a string that still opens with a
fence, and a second application strips again, yielding a different
string.  This refutes clean(clean(x)) == clean(x) as stated. -/
theorem c6_clean_not_idempotent :
    cleanJSONResponse "\x60\x60\x60\x0a\x60\x60\x60json\x0afoo"
      = .ok "\x60\x60\x60json\x0afoo" ∧
    cleanJSONResponse "\x60\x60\x60json\x0afoo" = .ok "foo" ∧
    ("foo" : String) ≠ "\x60\x60\x60json\x0afoo" :=
  ⟨rfl, rfl, by decide⟩

/-- C6 (amended): the Response Cleaner is idempotent on every input whose
first application succeeds with a result that does not itself (after
trimming) start with a fence marker — there the second application is a
no-op; an input opening with two fence lines defeats idempotence. -/
theorem c6_clean_idempotent_on_unfenced_output (x y : String)
    (h1 : cleanJSONResponse x = .ok y)
    (h2 : jsStartsWith (jsTrim y) fenceMarker = false) :
    (cleanJSONResponse x).bind cleanJSONResponse = cleanJSONResponse x := by
  rw [h1]
  show cleanJSONResponse y = Except.ok y
  simp [cleanJSONResponse, h2]

/-- C6 amended-claim witness at a well-formed fenced input. -/
theorem c6_witness :
    (cleanJSONResponse "\x60\x60\x60json\x0abar\x0a\x60\x60\x60").bind cleanJSONResponse
      = cleanJSONResponse "\x60\x60\x60json\x0abar\x0a\x60\x60\x60" :=
  c6_clean_idempotent_on_unfenced_output _ "bar" rfl (by decide)

/-- C7 counterexample: the Response Cleaner raises on the string input
"\x60\x60\x60json" (a fence with no newline): the shift empties the line
array and the closing-fence test reads `undefined`, throwing a TypeError
instead of returning a string.  This refutes "never raises on any string
input" as stated. -/
theorem c7_clean_raises_on_bare_fence :
    cleanJSONResponse "\x60\x60\x60json"
      = .error "TypeError: Cannot read properties of undefined (reading startsWith)" :=
  rfl

/-- C7 (amended): when the trimmed input does not start with a fence
marker the cleaner returns the input unchanged (hence cannot raise), and
when the trimmed input spans at least two lines the cleaner returns some
string without raising; only a fenced input with no newline raises. -/
theorem c7_clean_safe (x : String) :
    (jsStartsWith (jsTrim x) fenceMarker = false → cleanJSONResponse x = .ok x) ∧
    (2 ≤ (jsSplitNewline (jsTrim x)).length → ∃ y, cleanJSONResponse x = .ok y) := by
  constructor
  · intro h
    simp [cleanJSONResponse, h]
  · intro hlen
    by_cases hb : jsStartsWith (jsTrim x) fenceMarker
    · have hne : (if jsStartsWith ((jsSplitNewline (jsTrim x)).headD "") fenceMarker
          then (jsSplitNewline (jsTrim x)).tail else (jsSplitNewline (jsTrim x))) ≠ [] := by
        split
        · refine List.length_pos.mp ?_
          rw [List.length_tail]
          omega
        · exact List.length_pos.mp (by omega)
      have hok := stripClosingFence_ok hne
      simpa [cleanJSONResponse, hb] using hok
    · exact ⟨x, by simp [cleanJSONResponse, hb]⟩

/-- C7 amended-claim witness: an unfenced input is returned unchanged and
a two-line fenced input is cleaned without raising. -/
theorem c7_witness :
    cleanJSONResponse "plain text" = .ok "plain text" ∧
    ∃ y, cleanJSONResponse "\x60\x60\x60json\x0abody line" = .ok y :=
  ⟨(c7_clean_safe "plain text").1 (by decide),
   (c7_clean_safe "\x60\x60\x60json\x0abody line").2 (by decide)⟩

/-- C10: a candidate object whose `finalMessage` trims to the empty
string (empty or all-whitespace) is accepted by the validator: the word
count of such a string is computed as 1 — the JavaScript split of the
empty string yields one empty piece — so the strictly-under-15 check
passes even though the message has no words. -/
theorem c10_whitespace_message_accepted (r : String) (q : ℚ) (m : String)
    (h : trimChars m.data = []) :
    jsWordCount m = 1 ∧
    validate (JSValue.obj
        [("reasoning", .str r), ("score", .num q), ("finalMessage", .str m)])
      = .ok (JSValue.obj
        [("reasoning", .str r), ("score", .num q), ("finalMessage", .str m)]) := by
  have hw : jsWordCount m = 1 := by simp [jsWordCount, h]
  refine ⟨hw, ?_⟩
  simp [validate, getProp, jsTypeof, propTypeof, List.lookup, hw]

/-- C10 witness at a whitespace-only message. -/
theorem c10_witness :
    jsWordCount "  " = 1 ∧
    validate (JSValue.obj
        [("reasoning", .str "why"), ("score", .num 5), ("finalMessage", .str "  ")])
      = .ok (JSValue.obj
        [("reasoning", .str "why"), ("score", .num 5), ("finalMessage", .str "  ")]) :=
  c10_whitespace_message_accepted "why" 5 "  " (by decide)

/-- Field lookup on a decoded object, used to describe candidate shapes
in claim statements; non-objects have no fields. -/
def objField : JSValue → String → Option JSValue
  | .obj fields, name => fields.lookup name
  | _, _ => none

/-- The word-count reason string never coincides with the schema reason
string (their first characters already differ). -/
theorem wordCountMsg_ne_schemaErrorMsg (n : Nat) : wordCountMsg n ≠ schemaErrorMsg := by
  intro h
  have h2 := congrArg (fun s => s.data.head?) h
  simp only [wordCountMsg, schemaErrorMsg, String.data_append, List.head?_append] at h2
  simp at h2

/-- C4: on a decoded object carrying `reasoning : string`,
`score : number` and `finalMessage : string`, the validator rejects
exactly the messages whose computed word count reaches 15, with the
word-count-specific reason — distinct from the schema reason — and for a
word count in [1, 14] accepts, returning the candidate (the parsed value
itself). -/
theorem c4_word_count_validation (v : JSValue) (r m : String) (q : ℚ)
    (hr : objField v "reasoning" = some (.str r))
    (hq : objField v "score" = some (.num q))
    (hm : objField v "finalMessage" = some (.str m)) :
    (15 ≤ jsWordCount m →
      validate v = .error (wordCountMsg (jsWordCount m)) ∧
      wordCountMsg (jsWordCount m) ≠ schemaErrorMsg) ∧
    (1 ≤ jsWordCount m ∧ jsWordCount m ≤ 14 → validate v = .ok v) := by
  cases v with
  | obj fields =>
      simp only [objField] at hr hq hm
      constructor
      · intro h15
        refine ⟨?_, wordCountMsg_ne_schemaErrorMsg _⟩
        simp [validate, getProp, jsTypeof, propTypeof, hr, hq, hm, h15]
      · rintro ⟨-, h14⟩
        have hnot : ¬ (15 ≤ jsWordCount m) := by omega
        simp [validate, getProp, jsTypeof, propTypeof, hr, hq, hm, hnot]
  | null => simp [objField] at hr
  | bool b => simp [objField] at hr
  | num n => simp [objField] at hr
  | str s => simp [objField] at hr
  | arr l => simp [objField] at hr

/-- C4 witness: a 15-word message is rejected with the word-count reason
and a 3-word message is accepted. -/
theorem c4_witness :
    validate (JSValue.obj [("reasoning", .str "ok"), ("score", .num 4),
        ("finalMessage", .str "a b c d e f g h i j k l m n o")])
      = .error (wordCountMsg (jsWordCount "a b c d e f g h i j k l m n o")) ∧
    validate (JSValue.obj [("reasoning", .str "ok"), ("score", .num 4),
        ("finalMessage", .str "three short words")])
      = .ok (JSValue.obj [("reasoning", .str "ok"), ("score", .num 4),
        ("finalMessage", .str "three short words")]) :=
  ⟨((c4_word_count_validation
      (JSValue.obj [("reasoning", .str "ok"), ("score", .num 4),
        ("finalMessage", .str "a b c d e f g h i j k l m n o")])
      "ok" "a b c d e f g h i j k l m n o" 4 rfl rfl rfl).1 (by decide)).1,
   (c4_word_count_validation
      (JSValue.obj [("reasoning", .str "ok"), ("score", .num 4),
        ("finalMessage", .str "three short words")])
      "ok" "three short words" 4 rfl rfl rfl).2 (by decide)⟩

/-- A successful validation forces all three fields to be present with
the required types. -/
theorem validate_ok_fields {fields : List (String × JSValue)} {w : JSValue}
    (h : validate (.obj fields) = .ok w) :
    (∃ r, fields.lookup "reasoning" = some (.str r)) ∧
    (∃ q, fields.lookup "score" = some (.num q)) ∧
    (∃ m, fields.lookup "finalMessage" = some (.str m)) := by
  simp only [validate, getProp, jsTypeof, propTypeof] at h
  cases hr : fields.lookup "reasoning" with
  | none => rw [hr] at h; simp at h
  | some w1 =>
    rw [hr] at h
    cases w1 <;> simp at h
    case str r =>
    cases hq : fields.lookup "score" with
    | none => rw [hq] at h; simp at h
    | some w2 =>
      rw [hq] at h
      cases w2 <;> simp at h
      case num q =>
      cases hm : fields.lookup "finalMessage" with
      | none => rw [hm] at h; simp at h
      | some w3 =>
        rw [hm] at h
        cases w3 <;> simp at h
        case str m =>
        exact ⟨⟨r, rfl⟩, ⟨q, rfl⟩, ⟨m, rfl⟩⟩

/-- C5: every decoded value that is not an object (a primitive, `null`,
or an array), or is missing one of the three required fields, or carries
a wrong type for one of them, is rejected by the validation block: it
signals an error (the thrown schema Error, or for `null` the TypeError
raised when the short-circuit chain reaches the first property access —
both caught by the per-attempt handler, so no fault escapes) and never
yields a candidate.  The checks run in source order and stop at the
first failure: in particular `null` passes the `typeof` check (its
`typeof` is "object") and the chain only fails at the subsequent
`parsed.reasoning` access, as the recorded TypeError reason shows. -/
theorem c5_schema_violations_rejected (v : JSValue)
    (h : (∀ fields, v ≠ .obj fields) ∨
         (¬ ∃ r, objField v "reasoning" = some (.str r)) ∨
         (¬ ∃ q, objField v "score" = some (.num q)) ∨
         (¬ ∃ m, objField v "finalMessage" = some (.str m))) :
    ∃ e, validate v = .error e ∧ (v = .null →
      e = "TypeError: Cannot read properties of null (reading reasoning)") := by
  cases hv : validate v with
  | error e =>
    refine ⟨e, rfl, fun hnull => ?_⟩
    subst hnull
    have hcomp : validate JSValue.null
        = .error "TypeError: Cannot read properties of null (reading reasoning)" := rfl
    rw [hcomp] at hv
    exact (Except.error.inj hv).symm
  | ok w =>
    exfalso
    cases v with
    | obj fields =>
      obtain ⟨⟨r, hr⟩, ⟨q, hq⟩, ⟨m, hm⟩⟩ := validate_ok_fields hv
      rcases h with h | h | h | h
      · exact h fields rfl
      · exact h ⟨r, by simp [objField, hr]⟩
      · exact h ⟨q, by simp [objField, hq]⟩
      · exact h ⟨m, by simp [objField, hm]⟩
    | null => simp [validate, getProp, jsTypeof, propTypeof] at hv
    | bool b => simp [validate, getProp, jsTypeof, propTypeof] at hv
    | num n => simp [validate, getProp, jsTypeof, propTypeof] at hv
    | str s => simp [validate, getProp, jsTypeof, propTypeof] at hv
    | arr l => simp [validate, getProp, jsTypeof, propTypeof] at hv

/-- C5 witness: a bare string, `null`, an array, and an object with a
wrongly-typed `score` are each rejected. -/
theorem c5_witness :
    (∃ e, validate (JSValue.str "plain") = .error e ∧ (JSValue.str "plain" = .null →
      e = "TypeError: Cannot read properties of null (reading reasoning)")) ∧
    (∃ e, validate JSValue.null = .error e ∧ (JSValue.null = .null →
      e = "TypeError: Cannot read properties of null (reading reasoning)")) ∧
    (∃ e, validate (JSValue.arr []) = .error e ∧ (JSValue.arr [] = .null →
      e = "TypeError: Cannot read properties of null (reading reasoning)")) ∧
    (∃ e, validate (JSValue.obj [("reasoning", .str "r"),
        ("score", .str "high"), ("finalMessage", .str "hello")]) = .error e ∧
      (JSValue.obj [("reasoning", .str "r"), ("score", .str "high"),
        ("finalMessage", .str "hello")] = .null →
      e = "TypeError: Cannot read properties of null (reading reasoning)")) :=
  ⟨c5_schema_violations_rejected _ (Or.inl (fun fields => by simp)),
   c5_schema_violations_rejected _ (Or.inl (fun fields => by simp)),
   c5_schema_violations_rejected _ (Or.inl (fun fields => by simp)),
   c5_schema_violations_rejected _ (Or.inr (Or.inr (Or.inl
     (by rintro ⟨q, hq⟩; simp [objField, List.lookup] at hq))))⟩

/-- C9: an unrecognized theme value is rejected by the request validation
with a 400 bad-request result before the generation starts: the handler
fails fast and the provider-call trace is empty. -/
theorem c9_invalid_theme_fails_fast (jsonParse : String → Option JSValue)
    (provider : Nat → ProviderResponse) (rng : Nat → ℚ)
    (systemPrompt userPrompt theme : String)
    (h1 : theme ≠ "wholesome") (h2 : theme ≠ "dark") :
    fortuneHandler jsonParse provider rng systemPrompt userPrompt theme
      = (.badRequest, []) := by
  have hv : validateFortuneRequest theme = false := by
    simp [validateFortuneRequest, h1, h2]
  simp [fortuneHandler, hv]

/-- C9 witness at the theme "spooky". -/
theorem c9_witness :
    fortuneHandler (fun _ => none) (fun _ => .rateLimited) (fun _ => 0)
      "sys" "usr" "spooky" = (.badRequest, []) :=
  c9_invalid_theme_fails_fast _ _ _ _ _ _ (by decide) (by decide)

/-- C1: for a syntactically valid theme, `generate` always returns a
terminal `GenerationResult` — the uncaught-throw branch is unreachable —
and whenever every provider call fails to yield a processable success
(rate limits, thrown errors, empty, malformed or invalid payloads), the
result degrades to the Fallback drawn from the active theme's pool
instead of propagating any error. -/
theorem c1_generate_total_and_exhaustion_fallback
    (jsonParse : String → Option JSValue) (provider : Nat → ProviderResponse)
    (rng : Nat → ℚ) (systemPrompt userPrompt theme : String)
    (_htheme : theme = "wholesome" ∨ theme = "dark") :
    (∃ res, (generate jsonParse provider rng systemPrompt userPrompt theme).1
        = .ok res) ∧
    ((∀ k c, provider k = .ok c → ∃ e, processResponse jsonParse c = .error e) →
      ∃ s, (generate jsonParse provider rng systemPrompt userPrompt theme).1
          = .ok (.fallback [s]) ∧ s ∈ themePool theme) :=
  ⟨generate_total jsonParse provider rng systemPrompt userPrompt theme,
   fun hfail => generate_exhausted rng systemPrompt userPrompt theme hfail⟩

/-- C1 witness: with an always-rate-limited provider and the wholesome
theme, generation returns a result, and it is a pool fallback. -/
theorem c1_witness :
    (∃ res, (generate (fun _ => none) (fun _ => .rateLimited) (fun _ => 0)
        "sys" "usr" "wholesome").1 = .ok res) ∧
    (∃ s, (generate (fun _ => none) (fun _ => .rateLimited) (fun _ => 0)
        "sys" "usr" "wholesome").1 = .ok (.fallback [s])
      ∧ s ∈ themePool "wholesome") := by
  have h := c1_generate_total_and_exhaustion_fallback
    (fun _ => none) (fun _ => .rateLimited) (fun _ => 0)
    "sys" "usr" "wholesome" (Or.inl rfl)
  exact ⟨h.1, h.2 (fun k c hc => nomatch hc)⟩

/-- C2: when every provider call is rate-limited, the handler makes
exactly one call per ladder model — the call trace is the ladder itself,
in order, never a second call to a rate-limited model — and terminates in
the Fallback state after this single pass. -/
theorem c2_rate_limited_single_pass
    (jsonParse : String → Option JSValue) (provider : Nat → ProviderResponse)
    (rng : Nat → ℚ) (systemPrompt userPrompt theme : String)
    (h : ∀ k, provider k = .rateLimited) :
    ∃ s, generate jsonParse provider rng systemPrompt userPrompt theme
        = (.ok (.fallback [s]), fallbackModels) := by
  have hone : ∀ model callIdx,
      attemptLoop jsonParse provider model maxAttempts callIdx = (none, [model]) := by
    intro model callIdx
    simp [maxAttempts, attemptLoop, h]
  have hall : ∀ models callIdx,
      modelLoop jsonParse provider models callIdx = (none, models) := by
    intro models
    induction models with
    | nil => intro callIdx; rfl
    | cons m rest ih =>
      intro callIdx
      rw [modelLoop]
      simp [hone, ih]
  rcases getRandomElements_one rng (themePool_nonempty theme) with ⟨s, hs, _⟩
  refine ⟨s, ?_⟩
  simp [generate, hall, hs]

/-- C2 witness at an always-rate-limited provider. -/
theorem c2_witness :
    ∃ s, generate (fun _ => none) (fun _ => .rateLimited) (fun _ => 0)
        "sys" "usr" "dark" = (.ok (.fallback [s]), fallbackModels) :=
  c2_rate_limited_single_pass _ _ _ _ _ _ (fun _ => rfl)

/-- C3: when the first `maxAttempts - 1` (= 2) calls against the first
ladder model fail with non-rate-limit errors and the next call returns a
processable success, generation terminates as Validated after exactly
`maxAttempts` (= 3) calls, all against the first model, with zero calls
to any later model: success stops all iteration immediately. -/
theorem c3_transport_then_success_first_model
    (jsonParse : String → Option JSValue) (provider : Nat → ProviderResponse)
    (rng : Nat → ℚ) (systemPrompt userPrompt theme : String)
    (content : Option String) (parsed : JSValue) (e0 e1 : String)
    (h0 : provider 0 = .apiError e0) (h1 : provider 1 = .apiError e1)
    (h2 : provider 2 = .ok content)
    (h3 : processResponse jsonParse content = .ok parsed) :
    generate jsonParse provider rng systemPrompt userPrompt theme
      = (.ok (.validated parsed systemPrompt userPrompt),
         ["llama-3.3-70b-versatile", "llama-3.3-70b-versatile",
          "llama-3.3-70b-versatile"]) := by
  have hfirst : attemptLoop jsonParse provider "llama-3.3-70b-versatile" maxAttempts 0
      = (some parsed,
         ["llama-3.3-70b-versatile", "llama-3.3-70b-versatile",
          "llama-3.3-70b-versatile"]) := by
    simp [maxAttempts, attemptLoop, h0, h1, h2, h3]
  simp [generate, modelLoop, fallbackModels, hfirst]

/-- C3 witness at a scripted provider failing twice then succeeding with
a valid two-word candidate. -/
theorem c3_witness :
    generate (fun s => if s = "GOOD" then some (JSValue.obj [("reasoning", .str "r"),
        ("score", .num 5), ("finalMessage", .str "stay curious")]) else none)
      (fun k => if k = 0 then .apiError "boom" else
                if k = 1 then .apiError "boom" else .ok (some "GOOD"))
      (fun _ => 0) "sys" "usr" "wholesome"
      = (.ok (.validated (JSValue.obj [("reasoning", .str "r"),
          ("score", .num 5), ("finalMessage", .str "stay curious")]) "sys" "usr"),
         ["llama-3.3-70b-versatile", "llama-3.3-70b-versatile",
          "llama-3.3-70b-versatile"]) :=
  c3_transport_then_success_first_model _ _ _ _ _ _ _ _ "boom" "boom"
    rfl rfl rfl rfl

/-- C8 (code evidence): on exhaustion the handler's fallback body nests a
one-element ARRAY under `finalMessage` — its element is drawn from the
active theme's pool, but the field does not carry that string itself:
`getRandomElements(pool, 1)` returns an array and the handler embeds it
unwrapped, while the success branch puts a plain string in the same
place. -/
theorem c8_fallback_message_is_array
    (jsonParse : String → Option JSValue) (provider : Nat → ProviderResponse)
    (rng : Nat → ℚ) (systemPrompt userPrompt theme : String)
    (hvalid : validateFortuneRequest theme = true)
    (hfail : ∀ k c, provider k = .ok c → ∃ e, processResponse jsonParse c = .error e) :
    ∃ s calls, fortuneHandler jsonParse provider rng systemPrompt userPrompt theme
        = (.okJson (.obj [("response", .obj [("finalMessage", .arr [.str s])])]), calls)
      ∧ s ∈ themePool theme ∧ ∀ t, JSValue.arr [.str s] ≠ JSValue.str t := by
  rcases generate_exhausted rng systemPrompt userPrompt theme hfail with ⟨s, hgen, hmem⟩
  refine ⟨s, (generate jsonParse provider rng systemPrompt userPrompt theme).2,
    ?_, hmem, fun t ht => JSValue.noConfusion ht⟩
  simp [fortuneHandler, hvalid, hgen, resultToJSON]

/-- C8 witness: a concrete exhausted run of the handler on the wholesome
theme. -/
theorem c8_witness :
    ∃ s calls, fortuneHandler (fun _ => none) (fun _ => .rateLimited) (fun _ => 0)
        "sys" "usr" "wholesome"
        = (.okJson (.obj [("response", .obj [("finalMessage", .arr [.str s])])]), calls)
      ∧ s ∈ themePool "wholesome" ∧ ∀ t, JSValue.arr [.str s] ≠ JSValue.str t :=
  c8_fallback_message_is_array (fun _ => none) (fun _ => .rateLimited) (fun _ => 0)
    "sys" "usr" "wholesome" (by decide) (fun k c hc => nomatch hc)
